import Mathlib

/-!
Shallow embedding of an AI Telegram chatbot with two entry points:

* a long-polling script (source file 02_main.py), modelled in namespace
  Main02, and
* a serverless webhook endpoint (source file api/webhook.py), modelled in
  namespace Webhook, together with the Vercel HTTP handler.

Both entry points share the same design: a module-level dictionary
user_chats mapping a Telegram user id to an opaque chat-session handle
obtained from the LLM client, a /start handler, and a text-message handler
that submits the text to the session and classifies the model response.

Modelling decisions, all taken from the source:

* The session registry (the Python dict user_chats) is an association list
  from user id to session; regLookup models membership test / item access
  and regSet models item assignment (replace if the key is present, insert
  otherwise), which is exactly dict semantics.
* A chat session is represented by the list of messages submitted to it
  (its conversation history); llm_model.start_chat with empty history
  yields an empty history.
* The external LLM client is a parameter (structure LLM): start_chat and
  send_message may each succeed or raise, so both return Except. A
  successful send returns the structured model response together with the
  mutated session (send_message appends to the session history in place;
  regSet at the same key models the in-place mutation of the stored
  object).
* A handler invocation is summarised by HandlerResult: the list of
  outbound replies it sent, the registry state it leaves behind, and
  an optional uncaught exception that propagates out of the handler
  (escaped = some e); code inside a try/except never sets escaped.
* Python truthiness of strings (empty string is falsy) and of lists
  (empty list is falsy) is modelled explicitly where the source relies
  on it (if response.text, if response.candidates, if finish_reason).
* The substring test of Python (pattern in s) is strContains.
-/

/-- A conversation session handle, as created by start_chat with empty
history; the history field records the messages submitted so far. -/
structure ChatSession where
  history : List String
  deriving DecidableEq

/-- One entry of candidate.safety_ratings: a blocked flag and the name of
the harm category. -/
structure SafetyRating where
  blocked : Bool
  categoryName : String
  deriving DecidableEq

/-- One response candidate. finishReasonName models
candidate.finish_reason.name when the finish_reason attribute is present
(none models an absent attribute, as probed by hasattr in the source);
the safety-ratings list models candidate.safety_ratings, with the empty
list covering both an absent attribute and an empty (falsy) list. -/
structure Candidate where
  finishReasonName : Option String
  safetyRatings : List SafetyRating
  deriving DecidableEq

/-- A structured model response: reply text (empty string models falsy
response.text) and the candidate list. -/
structure ModelResponse where
  text : String
  candidates : List Candidate
  deriving DecidableEq

/-- The external LLM client, as consumed by the source: start_chat with
empty history, and send_message on a session, each of which may raise.
A successful send yields the response and the session after its in-place
history update. -/
structure LLM where
  startChat : Except String ChatSession
  send : ChatSession → String → Except String (ModelResponse × ChatSession)

/-- The session registry user_chats: a finite map from user id to session,
as an association list. -/
abbrev Registry := List (Nat × ChatSession)

/-- Dictionary lookup: user_chats[uid] / (uid in user_chats). -/
def regLookup : Registry → Nat → Option ChatSession
  | [], _ => none
  | (k, v) :: rest, uid => if k = uid then some v else regLookup rest uid

/-- Dictionary assignment user_chats[uid] = s: replace the entry if the
key is present, append a new entry otherwise. -/
def regSet : Registry → Nat → ChatSession → Registry
  | [], uid, s => [(uid, s)]
  | (k, v) :: rest, uid, s =>
      if k = uid then (k, s) :: rest else (k, v) :: regSet rest uid s

/-- The dictionary invariant: at most one entry per user id. -/
def nodupKeys (chats : Registry) : Prop := (chats.map Prod.fst).Nodup

instance (chats : Registry) : Decidable (nodupKeys chats) := by
  unfold nodupKeys
  infer_instance

/-- Python substring test over character lists: pat occurs contiguously
in the second list. -/
def containsSub (pat : List Char) : List Char → Bool
  | [] => pat.isEmpty
  | c :: rest => pat.isPrefixOf (c :: rest) || containsSub pat rest

/-- Python (pat in s) on strings. -/
def strContains (s pat : String) : Bool := containsSub pat.toList s.toList

/-- The outcome of one handler invocation: outbound replies sent, the
registry left behind, and an uncaught exception, if one propagates. -/
structure HandlerResult where
  replies : List String
  chats : Registry
  escaped : Option String
  deriving DecidableEq

/-- The get-or-create step shared verbatim by both source files:
if user_id not in user_chats, user_chats[user_id] =
llm_model.start_chat(history=[]). This runs outside any try/except, so a
raise from start_chat propagates (Except.error). -/
def ensureChat (llm : LLM) (chats : Registry) (uid : Nat) :
    Except String Registry :=
  if (regLookup chats uid).isSome then Except.ok chats
  else
    match llm.startChat with
    | Except.error e => Except.error e
    | Except.ok s => Except.ok (regSet chats uid s)

/-- Greeting sent by start in 02_main.py (the same literal for every
user). -/
def mainGreeting : String :=
  "¡Hola! Soy tu asistente de IA. Envíame un mensaje para empezar a conversar."

/-- Greeting sent by start in api/webhook.py: an f-string embedding the
user first name. -/
def webhookGreeting (firstName : String) : String :=
  "¡Hola " ++ firstName ++ "! Soy tu asistente de IA. Envíame un mensaje y conversaremos."

/-- Fixed recitation-restriction message of api/webhook.py. -/
def recitationMsg : String :=
  "Lo siento, no puedo proporcionar esa información directamente debido a restricciones de contenido (posible recitación de fuentes). Por favor, intenta reformular tu pregunta."

/-- Fixed safety-policy message of api/webhook.py. -/
def safetyMsg : String :=
  "Lo siento, no puedo responder a esa pregunta debido a nuestras políticas de seguridad de contenido. Por favor, intenta con otra pregunta."

/-- Templated other-reason message of api/webhook.py, embedding the raw
finish-reason string. -/
def otherReasonMsg (finishReason : String) : String :=
  "Lo siento, no pude generar una respuesta clara. Razón: " ++ finishReason ++ ". ¿Puedes intentar reformular?"

/-- Generic could-not-produce-a-response fallback of api/webhook.py. -/
def fallbackMsg : String :=
  "Lo siento, no pude generar una respuesta para esa pregunta. Por favor, intenta reformularla."

/-- Fixed error reply of the except-branch in api/webhook.py. -/
def webhookErrorMsg : String :=
  "Lo siento, hubo un error al procesar tu solicitud. Por favor, inténtalo de nuevo más tarde."

/-- Fixed error reply of the except-branch in 02_main.py. -/
def main02ErrorMsg : String :=
  "Lo siento, hubo un problema al procesar tu solicitud. Inténtalo de nuevo más tarde."

/-- The finish_reason string computed by the else-branch of
handle_message in api/webhook.py: starts as None; if response.candidates
is truthy, take the first candidate; if it has a finish_reason attribute
use its name; otherwise, if it has a truthy safety_ratings list, scan for
the first blocked rating and build the Spanish-prefixed string. -/
def computeFinishReason (response : ModelResponse) : Option String :=
  match response.candidates with
  | [] => none
  | firstCandidate :: _ =>
    match firstCandidate.finishReasonName with
    | some name => some name
    | none =>
      match firstCandidate.safetyRatings.find? (fun rating => rating.blocked) with
      | some rating => some ("SEGURIDAD: " ++ rating.categoryName)
      | none => none

/-- Classification of an empty-text response in api/webhook.py: if the
computed finish_reason is truthy (present and non-empty), route on the
RECITATION / SAFETY substring tests, else the templated message; a falsy
finish_reason yields the generic fallback. -/
def classifyEmpty (response : ModelResponse) : String :=
  match computeFinishReason response with
  | some finishReason =>
    if finishReason.isEmpty then fallbackMsg
    else if strContains finishReason "RECITATION" then recitationMsg
    else if strContains finishReason "SAFETY" then safetyMsg
    else otherReasonMsg finishReason
  | none => fallbackMsg

/-- The single reply produced by the response-classification policy of
handle_message in api/webhook.py: the text verbatim when truthy, the
empty-text classification otherwise. -/
def webhookReplyOf (response : ModelResponse) : String :=
  if response.text.isEmpty then classifyEmpty response else response.text

namespace Webhook

/-- start of api/webhook.py: get-or-create the session (outside any
try/except, so a raise propagates with no reply), then reply with the
greeting embedding the user first name. -/
def start (llm : LLM) (chats : Registry) (uid : Nat) (firstName : String) :
    HandlerResult :=
  match ensureChat llm chats uid with
  | Except.error e => { replies := [], chats := chats, escaped := some e }
  | Except.ok chats1 =>
    { replies := [webhookGreeting firstName], chats := chats1, escaped := none }

/-- handle_message of api/webhook.py: get-or-create the session and fetch
it (both outside the try, so a raise there propagates with no reply);
inside the try, send the message; on success classify the response into
one reply and record the mutated session; on a raise, reply with the
fixed error message. -/
def handle_message (llm : LLM) (chats : Registry) (uid : Nat)
    (text : String) : HandlerResult :=
  match ensureChat llm chats uid with
  | Except.error e => { replies := [], chats := chats, escaped := some e }
  | Except.ok chats1 =>
    match regLookup chats1 uid with
    | none => { replies := [], chats := chats1, escaped := some "KeyError" }
    | some chatSession =>
      match llm.send chatSession text with
      | Except.error _ =>
        { replies := [webhookErrorMsg], chats := chats1, escaped := none }
      | Except.ok (response, chatSession1) =>
        { replies := [webhookReplyOf response]
          chats := regSet chats1 uid chatSession1
          escaped := none }

end Webhook

namespace Main02

/-- start of 02_main.py: get-or-create the session, then reply with the
fixed greeting (identical for every user). -/
def start (llm : LLM) (chats : Registry) (uid : Nat) : HandlerResult :=
  match ensureChat llm chats uid with
  | Except.error e => { replies := [], chats := chats, escaped := some e }
  | Except.ok chats1 =>
    { replies := [mainGreeting], chats := chats1, escaped := none }

/-- handle_message of 02_main.py: get-or-create the session and fetch it
(outside the try); inside the try, send the message and reply with
response.text unconditionally; on a raise, reply with the fixed error
message. -/
def handle_message (llm : LLM) (chats : Registry) (uid : Nat)
    (text : String) : HandlerResult :=
  match ensureChat llm chats uid with
  | Except.error e => { replies := [], chats := chats, escaped := some e }
  | Except.ok chats1 =>
    match regLookup chats1 uid with
    | none => { replies := [], chats := chats1, escaped := some "KeyError" }
    | some chatSession =>
      match llm.send chatSession text with
      | Except.error _ =>
        { replies := [main02ErrorMsg], chats := chats1, escaped := none }
      | Except.ok (response, chatSession1) =>
        { replies := [response.text]
          chats := regSet chats1 uid chatSession1
          escaped := none }

end Main02

/-- An inbound Telegram update after routing by the registered handlers:
a /start command (CommandHandler), a non-command text message
(MessageHandler with filters.TEXT and not COMMAND), or anything else
(no handler registered). -/
inductive InboundUpdate
  | startCmd (uid : Nat) (firstName : String)
  | textMsg (uid : Nat) (text : String)
  | otherUpdate
  deriving DecidableEq

/-- One Vercel HTTP request: its method string, and the combined outcome
of request.json() plus Update.de_json (Except.error models a raise while
decoding, caught by the try/except of handler). -/
structure VercelRequest where
  method : String
  jsonBody : Except String InboundUpdate

/-- The dict returned by handler: statusCode and body. -/
structure HttpResponse where
  statusCode : Nat
  body : String
  deriving DecidableEq

/-- Body of the 500 response when TELEGRAM_BOT_TOKEN is not set. -/
def configErrorBody : String := "Internal Server Error: Bot Token not configured"

/-- Liveness body returned for non-POST requests. -/
def livenessBody : String :=
  "Bot está corriendo (webhook endpoint). Envía una petición POST de Telegram."

/-- application.process_update: route the decoded update to the
registered handler. Exceptions escaping a handler callback are routed by
the library to its error handling and are not re-raised into the caller,
so escaped does not turn into a raise at this layer. -/
def processUpdate (llm : LLM) (chats : Registry) (u : InboundUpdate) :
    HandlerResult :=
  match u with
  | InboundUpdate.startCmd uid firstName => Webhook.start llm chats uid firstName
  | InboundUpdate.textMsg uid text => Webhook.handle_message llm chats uid text
  | InboundUpdate.otherUpdate => { replies := [], chats := chats, escaped := none }

/-- handler of api/webhook.py. tokenConfigured models the truthiness of
TELEGRAM_BOT_TOKEN; the registry argument is the module-level user_chats
as it stands when the invocation begins (the handler itself never resets
it), and the second component of the result is user_chats afterwards. -/
def handler (tokenConfigured : Bool) (llm : LLM) (chats : Registry)
    (req : VercelRequest) : HttpResponse × Registry :=
  if !tokenConfigured then
    ({ statusCode := 500, body := configErrorBody }, chats)
  else if req.method = "POST" then
    match req.jsonBody with
    | Except.error e => ({ statusCode := 500, body := "Error: " ++ e }, chats)
    | Except.ok u =>
      let result := processUpdate llm chats u
      ({ statusCode := 200, body := "OK" }, result.chats)
  else
    ({ statusCode := 200, body := livenessBody }, chats)

/-- A concrete LLM used to evaluate the embedding on closed inputs: every
send succeeds with a non-empty echo text and appends the message to the
session history. -/
def echoLLM : LLM where
  startChat := Except.ok { history := [] }
  send := fun s msg =>
    Except.ok ({ text := "eco: " ++ msg, candidates := [] },
               { history := s.history ++ [msg] })

/-- A concrete LLM whose start_chat raises. -/
def failingStartLLM : LLM where
  startChat := Except.error "api down"
  send := fun s _ => Except.ok ({ text := "ok", candidates := [] }, s)

/-- A concrete LLM whose send_message raises. -/
def failingSendLLM : LLM where
  startChat := Except.ok { history := [] }
  send := fun _ _ => Except.error "timeout"

/-- A concrete LLM whose send always returns empty text and a first
candidate with no finish_reason attribute and one blocked safety
rating. -/
def safetyRatingLLM : LLM where
  startChat := Except.ok { history := [] }
  send := fun s msg =>
    Except.ok
      ({ text := ""
         candidates := [{ finishReasonName := none
                          safetyRatings := [{ blocked := true
                                              categoryName := "HARM_CATEGORY_HARASSMENT" }] }] },
       { history := s.history ++ [msg] })

/-- A concrete LLM whose send returns empty text and a first candidate
whose finish_reason name is the message text itself (used to exercise the
finish-reason classification branches on chosen reason strings). -/
def reasonEchoLLM : LLM where
  startChat := Except.ok { history := [] }
  send := fun s msg =>
    Except.ok
      ({ text := ""
         candidates := [{ finishReasonName := some msg, safetyRatings := [] }] },
       { history := s.history ++ [msg] })

/-- A concrete LLM producing, depending on the message, either an
empty-text response signalling a block through a blocked safety rating,
or one signalling it through a finish-reason whose name is the message
text. -/
def mixedBlockLLM : LLM where
  startChat := Except.ok { history := [] }
  send := fun s msg =>
    if msg = "ratings" then
      Except.ok
        ({ text := ""
           candidates := [{ finishReasonName := none
                            safetyRatings := [{ blocked := true
                                                categoryName := "HARM_CATEGORY_HARASSMENT" }] }] },
         { history := s.history ++ [msg] })
    else
      Except.ok
        ({ text := ""
           candidates := [{ finishReasonName := some msg, safetyRatings := [] }] },
         { history := s.history ++ [msg] })

/-- Assigning a key and then looking it up yields the assigned value. -/
theorem regLookup_regSet_self (chats : Registry) (uid : Nat) (s : ChatSession) :
    regLookup (regSet chats uid s) uid = some s := by
  induction chats with
  | nil => simp [regSet, regLookup]
  | cons head rest ih =>
    obtain ⟨k, v⟩ := head
    by_cases hk : k = uid
    · simp [regSet, regLookup, hk]
    · simp [regSet, regLookup, hk, ih]

/-- Assigning one key leaves every other key's lookup unchanged. -/
theorem regLookup_regSet_ne (chats : Registry) (uid v : Nat) (s : ChatSession)
    (h : v ≠ uid) : regLookup (regSet chats uid s) v = regLookup chats v := by
  have huv : ¬ uid = v := fun he => h he.symm
  induction chats with
  | nil => simp [regSet, regLookup, huv]
  | cons head rest ih =>
    obtain ⟨k, w⟩ := head
    by_cases hk : k = uid
    · subst hk
      simp [regSet, regLookup, huv]
    · simp only [regSet, hk, if_false, regLookup]
      by_cases hv : k = v
      · simp [hv]
      · simp [hv, ih]

/-- Every key of the registry after an assignment is the assigned key or
a key that was already there. -/
theorem mem_keys_regSet (chats : Registry) (uid a : Nat) (s : ChatSession)
    (h : a ∈ (regSet chats uid s).map Prod.fst) :
    a = uid ∨ a ∈ chats.map Prod.fst := by
  induction chats with
  | nil =>
    simp [regSet] at h
    simp [h]
  | cons head rest ih =>
    obtain ⟨k, v⟩ := head
    by_cases hk : k = uid
    · simp only [regSet, hk, if_true, List.map_cons, List.mem_cons] at h
      rcases h with h1 | h2
      · left; exact h1
      · right; simp [h2]
    · simp only [regSet, hk, if_false, List.map_cons, List.mem_cons] at h
      rcases h with h1 | h2
      · right; simp [h1]
      · rcases ih h2 with h3 | h4
        · left; exact h3
        · right; simp [h4]

/-- Assignment preserves the at-most-one-entry-per-key invariant. -/
theorem nodupKeys_regSet (chats : Registry) (uid : Nat) (s : ChatSession)
    (h : nodupKeys chats) : nodupKeys (regSet chats uid s) := by
  induction chats with
  | nil => simp [regSet, nodupKeys]
  | cons head rest ih =>
    obtain ⟨k, v⟩ := head
    have hnotin : k ∉ List.map Prod.fst rest := (List.nodup_cons.mp h).1
    have hrest : nodupKeys rest := (List.nodup_cons.mp h).2
    by_cases hk : k = uid
    · unfold regSet
      rw [if_pos hk]
      exact List.nodup_cons.mpr ⟨hnotin, hrest⟩
    · unfold regSet
      rw [if_neg hk]
      refine List.nodup_cons.mpr ⟨?_, ih hrest⟩
      intro hmem
      rcases mem_keys_regSet rest uid k s hmem with h1 | h2
      · exact hk h1
      · exact hnotin h2

/-- Assignment at an absent key grows the registry by exactly one
entry. -/
theorem regSet_length_of_absent (chats : Registry) (uid : Nat)
    (s : ChatSession) (h : regLookup chats uid = none) :
    (regSet chats uid s).length = chats.length + 1 := by
  induction chats with
  | nil => simp [regSet]
  | cons head rest ih =>
    obtain ⟨k, v⟩ := head
    by_cases hk : k = uid
    · simp [regLookup, hk] at h
    · simp only [regLookup, hk, if_false] at h
      simp [regSet, hk, ih h]

/-- The shapes an ensureChat success can take: the registry untouched
(key present), or the key freshly assigned to the session start_chat
returned (key absent). -/
theorem ensureChat_cases (llm : LLM) (chats chats1 : Registry) (uid : Nat)
    (h : ensureChat llm chats uid = Except.ok chats1) :
    chats1 = chats ∨
      ∃ s, llm.startChat = Except.ok s ∧ regLookup chats uid = none ∧
        chats1 = regSet chats uid s := by
  unfold ensureChat at h
  by_cases hp : (regLookup chats uid).isSome
  · rw [if_pos hp] at h
    exact Or.inl (Except.ok.inj h).symm
  · rw [if_neg hp] at h
    cases hs : llm.startChat with
    | error e => rw [hs] at h; exact Except.noConfusion h
    | ok s =>
      rw [hs] at h
      exact Or.inr ⟨s, rfl, Option.not_isSome_iff_eq_none.mp hp,
        (Except.ok.inj h).symm⟩

/-- After a successful ensureChat the user has an entry. -/
theorem ensureChat_lookup_isSome (llm : LLM) (chats chats1 : Registry)
    (uid : Nat) (h : ensureChat llm chats uid = Except.ok chats1) :
    (regLookup chats1 uid).isSome = true := by
  unfold ensureChat at h
  by_cases hp : (regLookup chats uid).isSome
  · rw [if_pos hp] at h
    rw [← Except.ok.inj h]
    exact hp
  · rw [if_neg hp] at h
    cases hs : llm.startChat with
    | error e => rw [hs] at h; exact Except.noConfusion h
    | ok s =>
      rw [hs] at h
      rw [← Except.ok.inj h, regLookup_regSet_self]
      rfl

/-- ensureChat leaves every other user's entry unchanged. -/
theorem ensureChat_frame (llm : LLM) (chats chats1 : Registry) (uid v : Nat)
    (hne : v ≠ uid) (h : ensureChat llm chats uid = Except.ok chats1) :
    regLookup chats1 v = regLookup chats v := by
  rcases ensureChat_cases llm chats chats1 uid h with h1 | ⟨s, _, _, h3⟩
  · rw [h1]
  · rw [h3, regLookup_regSet_ne _ _ _ _ hne]

/-- ensureChat preserves the at-most-one-entry-per-key invariant. -/
theorem ensureChat_nodup (llm : LLM) (chats chats1 : Registry) (uid : Nat)
    (hnd : nodupKeys chats) (h : ensureChat llm chats uid = Except.ok chats1) :
    nodupKeys chats1 := by
  rcases ensureChat_cases llm chats chats1 uid h with h1 | ⟨s, _, _, h3⟩
  · rw [h1]; exact hnd
  · rw [h3]; exact nodupKeys_regSet chats uid s hnd

/-- On the successful-send path, the reply sent by the webhook
handle_message is exactly the classification of the model response. -/
theorem webhook_replies_of_send (llm : LLM) (chats chats1 : Registry)
    (uid : Nat) (text : String) (s s1 : ChatSession) (resp : ModelResponse)
    (h1 : ensureChat llm chats uid = Except.ok chats1)
    (h2 : regLookup chats1 uid = some s)
    (h3 : llm.send s text = Except.ok (resp, s1)) :
    Webhook.handle_message llm chats uid text =
      { replies := [webhookReplyOf resp]
        chats := regSet chats1 uid s1
        escaped := none } := by
  simp only [Webhook.handle_message, h1, h2, h3]

/-- On the successful-send path, the reply sent by the long-polling
handle_message is response.text, unconditionally. -/
theorem main02_replies_of_send (llm : LLM) (chats chats1 : Registry)
    (uid : Nat) (text : String) (s s1 : ChatSession) (resp : ModelResponse)
    (h1 : ensureChat llm chats uid = Except.ok chats1)
    (h2 : regLookup chats1 uid = some s)
    (h3 : llm.send s text = Except.ok (resp, s1)) :
    Main02.handle_message llm chats uid text =
      { replies := [resp.text]
        chats := regSet chats1 uid s1
        escaped := none } := by
  simp only [Main02.handle_message, h1, h2, h3]

/-- Claim C1, counterexample: with the module still loaded, two
sequential invocations of handler for user 7 share session state; the
session seen by the second invocation carries the history stored by the
first, so no new empty-history session is created for the user in the
second invocation. -/
theorem claim_C1_counterexample :
    regLookup (handler true echoLLM
        (handler true echoLLM []
          { method := "POST", jsonBody := Except.ok (InboundUpdate.textMsg 7 "hola") }).2
        { method := "POST", jsonBody := Except.ok (InboundUpdate.textMsg 7 "otra") }).2 7
      = some { history := ["hola", "otra"] }
    ∧ regLookup (handler true echoLLM
        (handler true echoLLM []
          { method := "POST", jsonBody := Except.ok (InboundUpdate.textMsg 7 "hola") }).2
        { method := "POST", jsonBody := Except.ok (InboundUpdate.textMsg 7 "otra") }).2 7
      ≠ some { history := ["otra"] } := by
  decide

/-- Claim C1 as amended: handler itself does not reset the module-level
registry; an invocation that finds an existing session for the user (for
example one stored by a previous invocation in the same process) reuses
and updates that session rather than creating a fresh empty-history one.
The registry is empty only when the module itself is freshly
initialized. -/
theorem claim_C1 (llm : LLM) (chats : Registry) (uid : Nat) (text : String)
    (s s1 : ChatSession) (resp : ModelResponse)
    (hs : regLookup chats uid = some s)
    (hsend : llm.send s text = Except.ok (resp, s1)) :
    regLookup (handler true llm chats
      { method := "POST", jsonBody := Except.ok (InboundUpdate.textMsg uid text) }).2 uid
      = some s1 := by
  have hEnsure : ensureChat llm chats uid = Except.ok chats := by
    simp [ensureChat, hs]
  have hmsg := webhook_replies_of_send llm chats chats uid text s s1 resp hEnsure hs hsend
  simp [handler, processUpdate, hmsg, regLookup_regSet_self]

/-- Witness for claim C1: the second invocation of the counterexample
run, spelled out through the theorem. -/
theorem claim_C1_witness :
    regLookup [(7, ChatSession.mk ["hola"])] 7 = some { history := ["hola"] }
    ∧ echoLLM.send { history := ["hola"] } "otra"
        = Except.ok ({ text := "eco: otra", candidates := [] },
                     { history := ["hola", "otra"] })
    ∧ regLookup (handler true echoLLM [(7, ChatSession.mk ["hola"])]
        { method := "POST", jsonBody := Except.ok (InboundUpdate.textMsg 7 "otra") }).2 7
      = some { history := ["hola", "otra"] } :=
  ⟨rfl, rfl,
   claim_C1 echoLLM [(7, ChatSession.mk ["hola"])] 7 "otra"
     { history := ["hola"] } { history := ["hola", "otra"] }
     { text := "eco: otra", candidates := [] } rfl rfl⟩

/-- Claim C2, counterexample: for a model response with empty text whose
first candidate signals the block through a blocked safety rating (no
finish_reason attribute), the outbound reply is the templated
other-reason message embedding the Spanish-prefixed string, not the fixed
safety-policy message: the classifier tests for the substring SAFETY but
the ratings path builds a string prefixed SEGURIDAD. -/
theorem claim_C2_counterexample :
    (Webhook.handle_message safetyRatingLLM [] 7 "hola").replies
      = [otherReasonMsg "SEGURIDAD: HARM_CATEGORY_HARASSMENT"]
    ∧ (Webhook.handle_message safetyRatingLLM [] 7 "hola").replies ≠ [safetyMsg] := by
  decide

/-- Claim C2 as amended: for an empty-text response, when the block is
signalled by a finish-reason whose name contains SAFETY (and not
RECITATION), the outbound reply is the fixed safety-policy message; but
when it is signalled only by a blocked safety rating, the computed reason
is SEGURIDAD-prefixed, misses the SAFETY substring test, and the outbound
reply is the templated other-reason message embedding that string. -/
theorem claim_C2 (llm : LLM) (chats chats1 : Registry) (uid : Nat)
    (textA textB : String) (s sA sB : ChatSession) (name c : String)
    (rs : List SafetyRating)
    (h1 : ensureChat llm chats uid = Except.ok chats1)
    (h2 : regLookup chats1 uid = some s)
    (hA : llm.send s textA = Except.ok
      ({ text := "", candidates := [{ finishReasonName := some name, safetyRatings := rs }] }, sA))
    (hB : llm.send s textB = Except.ok
      ({ text := ""
         candidates := [{ finishReasonName := none
                          safetyRatings := [{ blocked := true, categoryName := c }] }] }, sB))
    (hne : name.isEmpty = false)
    (hnr : strContains name "RECITATION" = false)
    (hns : strContains name "SAFETY" = true)
    (hce : ("SEGURIDAD: " ++ c).isEmpty = false)
    (hcr : strContains ("SEGURIDAD: " ++ c) "RECITATION" = false)
    (hcs : strContains ("SEGURIDAD: " ++ c) "SAFETY" = false) :
    (Webhook.handle_message llm chats uid textA).replies = [safetyMsg]
    ∧ (Webhook.handle_message llm chats uid textB).replies
        = [otherReasonMsg ("SEGURIDAD: " ++ c)] := by
  constructor
  · rw [webhook_replies_of_send llm chats chats1 uid textA s sA _ h1 h2 hA]
    simp [webhookReplyOf, classifyEmpty, computeFinishReason, hne, hnr, hns,
      show ("" : String).isEmpty = true from rfl]
  · rw [webhook_replies_of_send llm chats chats1 uid textB s sB _ h1 h2 hB]
    simp [webhookReplyOf, classifyEmpty, computeFinishReason, List.find?,
      hce, hcr, hcs, show ("" : String).isEmpty = true from rfl]

/-- Witness for claim C2: one LLM, two messages; the finish-reason SAFETY
signal gets the fixed safety message, the blocked-rating signal gets the
templated message. -/
theorem claim_C2_witness :
    ensureChat mixedBlockLLM [] 7 = Except.ok [(7, { history := [] })]
    ∧ regLookup [(7, ChatSession.mk [])] 7 = some { history := [] }
    ∧ mixedBlockLLM.send { history := [] } "SAFETY"
        = Except.ok ({ text := ""
                       candidates := [{ finishReasonName := some "SAFETY"
                                        safetyRatings := [] }] },
                     { history := ["SAFETY"] })
    ∧ mixedBlockLLM.send { history := [] } "ratings"
        = Except.ok ({ text := ""
                       candidates := [{ finishReasonName := none
                                        safetyRatings := [{ blocked := true
                                                            categoryName := "HARM_CATEGORY_HARASSMENT" }] }] },
                     { history := ["ratings"] })
    ∧ ("SAFETY" : String).isEmpty = false
    ∧ strContains "SAFETY" "RECITATION" = false
    ∧ strContains "SAFETY" "SAFETY" = true
    ∧ ("SEGURIDAD: " ++ "HARM_CATEGORY_HARASSMENT").isEmpty = false
    ∧ strContains ("SEGURIDAD: " ++ "HARM_CATEGORY_HARASSMENT") "RECITATION" = false
    ∧ strContains ("SEGURIDAD: " ++ "HARM_CATEGORY_HARASSMENT") "SAFETY" = false
    ∧ ((Webhook.handle_message mixedBlockLLM [] 7 "SAFETY").replies = [safetyMsg]
       ∧ (Webhook.handle_message mixedBlockLLM [] 7 "ratings").replies
           = [otherReasonMsg ("SEGURIDAD: " ++ "HARM_CATEGORY_HARASSMENT")]) :=
  ⟨rfl, rfl, rfl, rfl, rfl, rfl, rfl, rfl, rfl, rfl,
   claim_C2 mixedBlockLLM [] [(7, { history := [] })] 7 "SAFETY" "ratings"
     { history := [] } { history := ["SAFETY"] } { history := ["ratings"] }
     "SAFETY" "HARM_CATEGORY_HARASSMENT" []
     rfl rfl rfl rfl rfl rfl rfl rfl rfl rfl⟩

/-- Claim C3: when the model response carries non-empty reply text, both
the single-shot and the long-polling handle_message send exactly one
outbound reply, equal to that text verbatim. -/
theorem claim_C3 (llm : LLM) (chats chats1 : Registry) (uid : Nat)
    (text : String) (s s1 : ChatSession) (resp : ModelResponse)
    (h1 : ensureChat llm chats uid = Except.ok chats1)
    (h2 : regLookup chats1 uid = some s)
    (h3 : llm.send s text = Except.ok (resp, s1))
    (h4 : resp.text.isEmpty = false) :
    (Webhook.handle_message llm chats uid text).replies = [resp.text]
    ∧ (Main02.handle_message llm chats uid text).replies = [resp.text] := by
  constructor
  · rw [webhook_replies_of_send llm chats chats1 uid text s s1 resp h1 h2 h3]
    simp [webhookReplyOf, h4]
  · rw [main02_replies_of_send llm chats chats1 uid text s s1 resp h1 h2 h3]

/-- Witness for claim C3 on a concrete run of both variants. -/
theorem claim_C3_witness :
    ensureChat echoLLM [] 7 = Except.ok [(7, { history := [] })]
    ∧ regLookup [(7, ChatSession.mk [])] 7 = some { history := [] }
    ∧ echoLLM.send { history := [] } "hola"
        = Except.ok ({ text := "eco: hola", candidates := [] }, { history := ["hola"] })
    ∧ ("eco: hola" : String).isEmpty = false
    ∧ ((Webhook.handle_message echoLLM [] 7 "hola").replies = ["eco: hola"]
       ∧ (Main02.handle_message echoLLM [] 7 "hola").replies = ["eco: hola"]) :=
  ⟨rfl, rfl, rfl, rfl,
   claim_C3 echoLLM [] [(7, { history := [] })] 7 "hola" { history := [] }
     { history := ["hola"] } { text := "eco: hola", candidates := [] }
     rfl rfl rfl rfl⟩

/-- Claim C4, counterexample: when start_chat raises during session
resolution for a new user, both variants let the exception escape (it is
raised before the try block) and send no reply at all, instead of
catching it and sending the fixed error reply. -/
theorem claim_C4_counterexample :
    (Webhook.handle_message failingStartLLM [] 7 "hola").escaped = some "api down"
    ∧ (Webhook.handle_message failingStartLLM [] 7 "hola").replies = []
    ∧ (Main02.handle_message failingStartLLM [] 7 "hola").escaped = some "api down"
    ∧ (Main02.handle_message failingStartLLM [] 7 "hola").replies = [] := by
  decide

/-- Claim C4 as amended: an exception raised by the LLM send call (and
anything after it inside the try) is caught by both variants, which
return without rethrowing and send exactly one fixed error reply;
exceptions during session resolution, however, occur before the try and
propagate. -/
theorem claim_C4 (llm : LLM) (chats chats1 : Registry) (uid : Nat)
    (text : String) (s : ChatSession) (e : String)
    (h1 : ensureChat llm chats uid = Except.ok chats1)
    (h2 : regLookup chats1 uid = some s)
    (h3 : llm.send s text = Except.error e) :
    (Webhook.handle_message llm chats uid text).replies = [webhookErrorMsg]
    ∧ (Webhook.handle_message llm chats uid text).escaped = none
    ∧ (Main02.handle_message llm chats uid text).replies = [main02ErrorMsg]
    ∧ (Main02.handle_message llm chats uid text).escaped = none := by
  simp [Webhook.handle_message, Main02.handle_message, h1, h2, h3]

/-- Witness for claim C4 on a concrete run with a send that raises. -/
theorem claim_C4_witness :
    ensureChat failingSendLLM [] 7 = Except.ok [(7, { history := [] })]
    ∧ regLookup [(7, ChatSession.mk [])] 7 = some { history := [] }
    ∧ failingSendLLM.send { history := [] } "hola" = Except.error "timeout"
    ∧ ((Webhook.handle_message failingSendLLM [] 7 "hola").replies = [webhookErrorMsg]
       ∧ (Webhook.handle_message failingSendLLM [] 7 "hola").escaped = none
       ∧ (Main02.handle_message failingSendLLM [] 7 "hola").replies = [main02ErrorMsg]
       ∧ (Main02.handle_message failingSendLLM [] 7 "hola").escaped = none) :=
  ⟨rfl, rfl, rfl,
   claim_C4 failingSendLLM [] [(7, { history := [] })] 7 "hola"
     { history := [] } "timeout" rfl rfl rfl⟩

/-- Claim C5: the HTTP status contract of handler. With the token
configured, a GET request gets status 200 with the liveness body, and a
POST request whose body decoding raises gets status 500 with the error
text embedded; with the token missing, any request, of any method and
body, gets status 500 with the fixed configuration-error body (the token
check precedes the method test and any decoding). -/
theorem claim_C5 (llm : LLM) (chats : Registry)
    (b : Except String InboundUpdate) (e : String) (req : VercelRequest) :
    (handler true llm chats { method := "GET", jsonBody := b }).1
      = { statusCode := 200, body := livenessBody }
    ∧ (handler true llm chats { method := "POST", jsonBody := Except.error e }).1
      = { statusCode := 500, body := "Error: " ++ e }
    ∧ (handler false llm chats req).1
      = { statusCode := 500, body := configErrorBody } := by
  refine ⟨?_, ?_, ?_⟩ <;> simp [handler]

/-- The ensureChat-success registry of the webhook start handler keeps
the at-most-one-entry-per-key invariant. -/
theorem webhookStart_nodup (llm : LLM) (chats : Registry) (uid : Nat)
    (firstName : String) (h : nodupKeys chats) :
    nodupKeys (Webhook.start llm chats uid firstName).chats := by
  unfold Webhook.start
  cases he : ensureChat llm chats uid with
  | error e => exact h
  | ok chats1 => exact ensureChat_nodup llm chats chats1 uid h he

/-- The long-polling start handler keeps the invariant. -/
theorem main02Start_nodup (llm : LLM) (chats : Registry) (uid : Nat)
    (h : nodupKeys chats) : nodupKeys (Main02.start llm chats uid).chats := by
  unfold Main02.start
  cases he : ensureChat llm chats uid with
  | error e => exact h
  | ok chats1 => exact ensureChat_nodup llm chats chats1 uid h he

/-- The webhook handle_message keeps the invariant on every path. -/
theorem webhookHandleMessage_nodup (llm : LLM) (chats : Registry)
    (uid : Nat) (text : String) (h : nodupKeys chats) :
    nodupKeys (Webhook.handle_message llm chats uid text).chats := by
  unfold Webhook.handle_message
  split
  · exact h
  · rename_i chats1 he
    have h1 : nodupKeys chats1 := ensureChat_nodup llm chats chats1 uid h he
    split
    · exact h1
    · split
      · exact h1
      · exact nodupKeys_regSet chats1 uid _ h1

/-- The long-polling handle_message keeps the invariant on every path. -/
theorem main02HandleMessage_nodup (llm : LLM) (chats : Registry)
    (uid : Nat) (text : String) (h : nodupKeys chats) :
    nodupKeys (Main02.handle_message llm chats uid text).chats := by
  unfold Main02.handle_message
  split
  · exact h
  · rename_i chats1 he
    have h1 : nodupKeys chats1 := ensureChat_nodup llm chats chats1 uid h he
    split
    · exact h1
    · split
      · exact h1
      · exact nodupKeys_regSet chats1 uid _ h1

/-- Claim C6: a first interaction for an absent user stores exactly one
new entry (the fresh empty-history session start_chat returned, found at
that user id, registry one entry longer); an interaction for a present
user returns the registry unchanged; and every handler of both variants
preserves the at-most-one-entry-per-user-id invariant. -/
theorem claim_C6 (llm : LLM) (chats : Registry) (uid : Nat)
    (text firstName : String) (hnd : nodupKeys chats) :
    (∀ s0, regLookup chats uid = none → llm.startChat = Except.ok s0 →
        ensureChat llm chats uid = Except.ok (regSet chats uid s0)
        ∧ regLookup (regSet chats uid s0) uid = some s0
        ∧ (regSet chats uid s0).length = chats.length + 1)
    ∧ (∀ s, regLookup chats uid = some s →
        ensureChat llm chats uid = Except.ok chats)
    ∧ nodupKeys (Webhook.start llm chats uid firstName).chats
    ∧ nodupKeys (Webhook.handle_message llm chats uid text).chats
    ∧ nodupKeys (Main02.start llm chats uid).chats
    ∧ nodupKeys (Main02.handle_message llm chats uid text).chats := by
  refine ⟨?_, ?_, webhookStart_nodup llm chats uid firstName hnd,
    webhookHandleMessage_nodup llm chats uid text hnd,
    main02Start_nodup llm chats uid hnd,
    main02HandleMessage_nodup llm chats uid text hnd⟩
  · intro s0 habs hstart
    refine ⟨?_, regLookup_regSet_self chats uid s0,
      regSet_length_of_absent chats uid s0 habs⟩
    unfold ensureChat
    rw [habs, hstart]
    rfl
  · intro s hsome
    unfold ensureChat
    rw [hsome]
    rfl

/-- Witness for claim C6 starting from the empty registry. -/
theorem claim_C6_witness :
    nodupKeys ([] : Registry)
    ∧ ((∀ s0, regLookup ([] : Registry) 7 = none →
          echoLLM.startChat = Except.ok s0 →
          ensureChat echoLLM ([] : Registry) 7 = Except.ok (regSet [] 7 s0)
          ∧ regLookup (regSet [] 7 s0) 7 = some s0
          ∧ (regSet ([] : Registry) 7 s0).length = ([] : Registry).length + 1)
      ∧ (∀ s, regLookup ([] : Registry) 7 = some s →
          ensureChat echoLLM ([] : Registry) 7 = Except.ok [])
      ∧ nodupKeys (Webhook.start echoLLM [] 7 "Ana").chats
      ∧ nodupKeys (Webhook.handle_message echoLLM [] 7 "hola").chats
      ∧ nodupKeys (Main02.start echoLLM [] 7).chats
      ∧ nodupKeys (Main02.handle_message echoLLM [] 7 "hola").chats) :=
  ⟨by decide, claim_C6 echoLLM [] 7 "hola" "Ana" (by decide)⟩

/-- Claim C7: for an empty-text response whose first candidate carries a
finish-reason name containing RECITATION, the outbound reply of the
webhook handle_message is the fixed recitation-restriction message (not
the generic fallback); and for a non-empty finish-reason name containing
neither RECITATION nor SAFETY, the outbound reply is the templated
message embedding that raw name verbatim. An empty name counts as no
reason discoverable (Python truthiness) and is excluded. -/
theorem claim_C7 (llm : LLM) (chats chats1 : Registry) (uid : Nat)
    (textA textB : String) (s sA sB : ChatSession) (name x : String)
    (rsA rsB : List SafetyRating)
    (h1 : ensureChat llm chats uid = Except.ok chats1)
    (h2 : regLookup chats1 uid = some s)
    (hA : llm.send s textA = Except.ok
      ({ text := "", candidates := [{ finishReasonName := some name, safetyRatings := rsA }] }, sA))
    (hB : llm.send s textB = Except.ok
      ({ text := "", candidates := [{ finishReasonName := some x, safetyRatings := rsB }] }, sB))
    (hne : name.isEmpty = false)
    (hnr : strContains name "RECITATION" = true)
    (hxe : x.isEmpty = false)
    (hxr : strContains x "RECITATION" = false)
    (hxs : strContains x "SAFETY" = false) :
    (Webhook.handle_message llm chats uid textA).replies = [recitationMsg]
    ∧ (Webhook.handle_message llm chats uid textB).replies = [otherReasonMsg x] := by
  constructor
  · rw [webhook_replies_of_send llm chats chats1 uid textA s sA _ h1 h2 hA]
    simp [webhookReplyOf, classifyEmpty, computeFinishReason, hne, hnr,
      show ("" : String).isEmpty = true from rfl]
  · rw [webhook_replies_of_send llm chats chats1 uid textB s sB _ h1 h2 hB]
    simp [webhookReplyOf, classifyEmpty, computeFinishReason, hxe, hxr, hxs,
      show ("" : String).isEmpty = true from rfl]

/-- Witness for claim C7: one LLM echoing the message as finish-reason
name; RECITATION gets the recitation message, MAX_TOKENS is embedded
verbatim in the templated message. -/
theorem claim_C7_witness :
    ensureChat reasonEchoLLM [] 7 = Except.ok [(7, { history := [] })]
    ∧ regLookup [(7, ChatSession.mk [])] 7 = some { history := [] }
    ∧ reasonEchoLLM.send { history := [] } "RECITATION"
        = Except.ok ({ text := ""
                       candidates := [{ finishReasonName := some "RECITATION"
                                        safetyRatings := [] }] },
                     { history := ["RECITATION"] })
    ∧ reasonEchoLLM.send { history := [] } "MAX_TOKENS"
        = Except.ok ({ text := ""
                       candidates := [{ finishReasonName := some "MAX_TOKENS"
                                        safetyRatings := [] }] },
                     { history := ["MAX_TOKENS"] })
    ∧ ("RECITATION" : String).isEmpty = false
    ∧ strContains "RECITATION" "RECITATION" = true
    ∧ ("MAX_TOKENS" : String).isEmpty = false
    ∧ strContains "MAX_TOKENS" "RECITATION" = false
    ∧ strContains "MAX_TOKENS" "SAFETY" = false
    ∧ ((Webhook.handle_message reasonEchoLLM [] 7 "RECITATION").replies
         = [recitationMsg]
       ∧ (Webhook.handle_message reasonEchoLLM [] 7 "MAX_TOKENS").replies
         = [otherReasonMsg "MAX_TOKENS"]) :=
  ⟨rfl, rfl, rfl, rfl, rfl, rfl, rfl, rfl, rfl,
   claim_C7 reasonEchoLLM [] [(7, { history := [] })] 7 "RECITATION"
     "MAX_TOKENS" { history := [] } { history := ["RECITATION"] }
     { history := ["MAX_TOKENS"] } "RECITATION" "MAX_TOKENS" [] []
     rfl rfl rfl rfl rfl rfl rfl rfl rfl⟩

/-- Claim C8, counterexample: in the single-shot variant the greeting is
not the same text for all users; it embeds the user first name, so two
users with different first names receive different greetings. -/
theorem claim_C8_counterexample :
    (Webhook.start echoLLM [] 1 "Ana").replies
      = ["¡Hola Ana! Soy tu asistente de IA. Envíame un mensaje y conversaremos."]
    ∧ (Webhook.start echoLLM [] 1 "Ana").replies
        ≠ (Webhook.start echoLLM [] 2 "Luis").replies := by
  decide

/-- Claim C8 as amended: in both variants, start ensures a session entry
exists for the user and sends exactly one greeting reply; the
long-polling greeting is one fixed text identical for every user, while
the single-shot greeting is a template embedding the user first name. -/
theorem claim_C8 (llm : LLM) (chats chats1 : Registry) (uid : Nat)
    (firstName : String)
    (h1 : ensureChat llm chats uid = Except.ok chats1) :
    (Main02.start llm chats uid).replies = [mainGreeting]
    ∧ (Main02.start llm chats uid).chats = chats1
    ∧ (Webhook.start llm chats uid firstName).replies = [webhookGreeting firstName]
    ∧ (Webhook.start llm chats uid firstName).chats = chats1
    ∧ (regLookup chats1 uid).isSome = true := by
  refine ⟨?_, ?_, ?_, ?_, ensureChat_lookup_isSome llm chats chats1 uid h1⟩ <;>
    simp [Main02.start, Webhook.start, h1]

/-- Witness for claim C8 on a concrete run of both start handlers. -/
theorem claim_C8_witness :
    ensureChat echoLLM [] 9 = Except.ok [(9, { history := [] })]
    ∧ ((Main02.start echoLLM [] 9).replies = [mainGreeting]
       ∧ (Main02.start echoLLM [] 9).chats = [(9, { history := [] })]
       ∧ (Webhook.start echoLLM [] 9 "Ana").replies = [webhookGreeting "Ana"]
       ∧ (Webhook.start echoLLM [] 9 "Ana").chats = [(9, { history := [] })]
       ∧ (regLookup [(9, ChatSession.mk [])] 9).isSome = true) :=
  ⟨rfl, claim_C8 echoLLM [] [(9, { history := [] })] 9 "Ana" rfl⟩

/-- Claim C9: when handle_message creates a session for a previously
absent user and the subsequent LLM send raises, the newly created entry
is still in the registry when the handler returns, in both variants: the
error path does not roll back the session-creation side effect. -/
theorem claim_C9 (llm : LLM) (chats : Registry) (uid : Nat) (text : String)
    (s0 : ChatSession) (e : String)
    (h1 : regLookup chats uid = none)
    (h2 : llm.startChat = Except.ok s0)
    (h3 : llm.send s0 text = Except.error e) :
    regLookup (Webhook.handle_message llm chats uid text).chats uid = some s0
    ∧ regLookup (Main02.handle_message llm chats uid text).chats uid = some s0 := by
  have hEnsure : ensureChat llm chats uid = Except.ok (regSet chats uid s0) := by
    unfold ensureChat
    rw [h1, h2]
    rfl
  have hLook : regLookup (regSet chats uid s0) uid = some s0 :=
    regLookup_regSet_self chats uid s0
  constructor <;>
    simp [Webhook.handle_message, Main02.handle_message, hEnsure, hLook, h3]

/-- Witness for claim C9: the session created for user 7 survives the
failing send in both variants. -/
theorem claim_C9_witness :
    regLookup ([] : Registry) 7 = none
    ∧ failingSendLLM.startChat = Except.ok { history := [] }
    ∧ failingSendLLM.send { history := [] } "hola" = Except.error "timeout"
    ∧ (regLookup (Webhook.handle_message failingSendLLM [] 7 "hola").chats 7
         = some { history := [] }
       ∧ regLookup (Main02.handle_message failingSendLLM [] 7 "hola").chats 7
         = some { history := [] }) :=
  ⟨rfl, rfl, rfl,
   claim_C9 failingSendLLM [] 7 "hola" { history := [] } "timeout" rfl rfl rfl⟩

/-- The webhook start handler leaves every other user's entry alone. -/
theorem webhookStart_frame (llm : LLM) (chats : Registry) (uid v : Nat)
    (firstName : String) (hne : v ≠ uid) :
    regLookup (Webhook.start llm chats uid firstName).chats v = regLookup chats v := by
  unfold Webhook.start
  split
  · rfl
  · rename_i chats1 he
    exact ensureChat_frame llm chats chats1 uid v hne he

/-- The long-polling start handler leaves every other user's entry
alone. -/
theorem main02Start_frame (llm : LLM) (chats : Registry) (uid v : Nat)
    (hne : v ≠ uid) :
    regLookup (Main02.start llm chats uid).chats v = regLookup chats v := by
  unfold Main02.start
  split
  · rfl
  · rename_i chats1 he
    exact ensureChat_frame llm chats chats1 uid v hne he

/-- The webhook handle_message leaves every other user's entry alone on
every path. -/
theorem webhookHandleMessage_frame (llm : LLM) (chats : Registry)
    (uid v : Nat) (text : String) (hne : v ≠ uid) :
    regLookup (Webhook.handle_message llm chats uid text).chats v
      = regLookup chats v := by
  unfold Webhook.handle_message
  split
  · rfl
  · rename_i chats1 he
    have hf : regLookup chats1 v = regLookup chats v :=
      ensureChat_frame llm chats chats1 uid v hne he
    split
    · exact hf
    · split
      · exact hf
      · rw [regLookup_regSet_ne chats1 uid v _ hne]
        exact hf

/-- The long-polling handle_message leaves every other user's entry
alone on every path. -/
theorem main02HandleMessage_frame (llm : LLM) (chats : Registry)
    (uid v : Nat) (text : String) (hne : v ≠ uid) :
    regLookup (Main02.handle_message llm chats uid text).chats v
      = regLookup chats v := by
  unfold Main02.handle_message
  split
  · rfl
  · rename_i chats1 he
    have hf : regLookup chats1 v = regLookup chats v :=
      ensureChat_frame llm chats chats1 uid v hne he
    split
    · exact hf
    · split
      · exact hf
      · rw [regLookup_regSet_ne chats1 uid v _ hne]
        exact hf

/-- Claim C10: an invocation of start or handle_message for user uid, in
either variant, leaves the registry entry of every other user v exactly
as it was, on every execution path including the error paths. -/
theorem claim_C10 (llm : LLM) (chats : Registry) (uid v : Nat)
    (text firstName : String) (hne : v ≠ uid) :
    regLookup (Webhook.start llm chats uid firstName).chats v = regLookup chats v
    ∧ regLookup (Webhook.handle_message llm chats uid text).chats v = regLookup chats v
    ∧ regLookup (Main02.start llm chats uid).chats v = regLookup chats v
    ∧ regLookup (Main02.handle_message llm chats uid text).chats v = regLookup chats v :=
  ⟨webhookStart_frame llm chats uid v firstName hne,
   webhookHandleMessage_frame llm chats uid v text hne,
   main02Start_frame llm chats uid v hne,
   main02HandleMessage_frame llm chats uid v text hne⟩

/-- Witness for claim C10: handlers acting for user 7 leave user 1's
entry untouched. -/
theorem claim_C10_witness :
    (1 : Nat) ≠ 7
    ∧ (regLookup (Webhook.start echoLLM [(1, ChatSession.mk ["x"])] 7 "Ana").chats 1
         = regLookup [(1, ChatSession.mk ["x"])] 1
       ∧ regLookup (Webhook.handle_message echoLLM [(1, ChatSession.mk ["x"])] 7 "hola").chats 1
         = regLookup [(1, ChatSession.mk ["x"])] 1
       ∧ regLookup (Main02.start echoLLM [(1, ChatSession.mk ["x"])] 7).chats 1
         = regLookup [(1, ChatSession.mk ["x"])] 1
       ∧ regLookup (Main02.handle_message echoLLM [(1, ChatSession.mk ["x"])] 7 "hola").chats 1
         = regLookup [(1, ChatSession.mk ["x"])] 1) :=
  ⟨by decide, claim_C10 echoLLM [(1, ChatSession.mk ["x"])] 7 1 "hola" "Ana" (by decide)⟩
